import Mathlib

/-!
Verification of the OAuth2/OIDC authorization-server core of the
AUTH-AI.SVRD.RU hub (backend/src).  The Python source is shallowly embedded:
each SQLAlchemy model becomes a Lean structure, the database session becomes an
explicit `DB` value threaded through the operations, `datetime.now(timezone.utc)`
becomes an explicit `now : Nat` argument (seconds), and the random values drawn
from `secrets.token_urlsafe` / `uuid.uuid4` become explicit arguments of the
operations that draw them.  Fallible endpoint handlers return sum types.
-/

namespace AuthHub

/-- UUID primary keys (`uuid.uuid4` columns) are modelled as naturals. -/
abbrev Uuid := Nat

/-- Embeds `models/application.py` class `Application`: the columns the OAuth
core reads (`id`, `client_id`, `client_secret_hash`, `redirect_uris`,
`is_active`, `is_public`). -/
structure Application where
  id : Uuid
  client_id : String
  client_secret_hash : String
  redirect_uris : List String
  is_active : Bool
  is_public : Bool
deriving Repr, DecidableEq

/-- Embeds `models/user.py` class `User`: the columns the OAuth core reads. -/
structure User where
  id : Uuid
  email : String
  display_name : String
  ad_groups : List String
deriving Repr, DecidableEq

/-- Embeds `models/oauth_token.py` class `OAuthCode`.  `used` is the nullable
`DateTime` column set when the code is exchanged. -/
structure OAuthCode where
  id : Uuid
  code : String
  user_id : Uuid
  application_id : Uuid
  redirect_uri : String
  scopes : List String
  state : Option String
  expires_at : Nat
  used : Option Nat
deriving Repr, DecidableEq

/-- Embeds `models/oauth_token.py` class `OAuthToken`. -/
structure OAuthToken where
  id : Uuid
  user_id : Uuid
  application_id : Uuid
  access_token : String
  refresh_token : String
  scopes : List String
  expires_at : Nat
  revoked_at : Option Nat
deriving Repr, DecidableEq

/-- Embeds `models/application_access.py` class `ApplicationAccess`: two
nullable principal columns (the check constraint demands exactly one set)
targeting an application. -/
structure ApplicationAccess where
  id : Uuid
  user_id : Option Uuid
  group_id : Option Uuid
  application_id : Uuid
deriving Repr, DecidableEq

/-- Embeds `models/user_group.py` class `UserGroup` together with its
`user_group_members` association rows, flattened to the member id list the
`members` relationship exposes. -/
structure UserGroup where
  id : Uuid
  name : String
  members : List Uuid
deriving Repr, DecidableEq

/-- The relational store the async session reads and writes: one list per
table touched by the OAuth core. -/
structure DB where
  applications : List Application
  users : List User
  codes : List OAuthCode
  tokens : List OAuthToken
  access_rules : List ApplicationAccess
  groups : List UserGroup
deriving Repr, DecidableEq

/-- Models `hashlib.sha256(secret.encode()).hexdigest()` from
`services/oauth_service.py`.  The digest internals are irrelevant to every
claim under verification; the stdlib call is modelled as a deterministic
injective encoding into the hex-digest string space. -/
def sha256_hexdigest (s : String) : String := "sha256$" ++ s

/-- Character-by-character scan of CPython string comparison (after the length
check, `str.__eq__` memcmp-style compares until the first mismatching
character).  Returns the number of character comparisons performed and the
boolean outcome. -/
def pyEqScan : List Char → List Char → Nat × Bool
  | [], [] => (0, true)
  | [], _ :: _ => (0, false)
  | _ :: _, [] => (0, false)
  | a :: as, b :: bs =>
    if a = b then
      let r := pyEqScan as bs
      (r.1 + 1, r.2)
    else (1, false)

/-- Cost-instrumented model of the Python `==` the source uses on digest
strings: an O(1) length check, then a short-circuit scan to the first
mismatch.  The second component is the comparison's boolean result, the first
the number of character comparisons it performs before returning. -/
def pyStrEqSteps (a b : String) : Nat × Bool :=
  if a.length = b.length then pyEqScan a.data b.data else (0, false)

/-- Cost-instrumented model of the fixed-time primitive
(`secrets.compare_digest` / `hmac.compare_digest`) that the source does NOT
use: it always scans the whole first operand, so its cost is independent of
where the first mismatch occurs. -/
def compareDigestSteps (a b : String) : Nat × Bool :=
  (a.length,
   (a.data.zip b.data).foldl (fun acc p => acc && decide (p.1 = p.2))
     (decide (a.length = b.length)))

/-- Embeds `OAuthService.hash_secret`. -/
def hash_secret (secret : String) : String := sha256_hexdigest secret

/-- Embeds `OAuthService.verify_secret`:
`hashlib.sha256(secret.encode()).hexdigest() == hashed`, the `==` being the
cost-instrumented Python string comparison. -/
def verify_secret (secret hashed : String) : Bool :=
  (pyStrEqSteps (sha256_hexdigest secret) hashed).2

/-- Embeds `OAuthService.get_application_by_client_id`: first row with
matching `client_id` and `is_active == True` (the column is uniquely
indexed). -/
def get_application_by_client_id (db : DB) (client_id : String) :
    Option Application :=
  db.applications.find? (fun a => a.client_id == client_id && a.is_active)

/-- Embeds `OAuthService.validate_redirect_uri`: exact set membership in the
application's registered `redirect_uris`. -/
def validate_redirect_uri (app : Application) (redirect_uri : String) : Bool :=
  app.redirect_uris.contains redirect_uri

/-- Python `str.startswith`, computed structurally on the character lists. -/
def str_starts_with (s pre : String) : Bool := pre.data.isPrefixOf s.data

/-- Python slicing `s[n:]`, computed structurally on the character list. -/
def str_drop (s : String) (n : Nat) : String := ⟨s.data.drop n⟩

/-- Models `settings.SECRET_KEY` from `core/config.py`: an opaque
configuration constant. -/
def SECRET_KEY : String := "hub-signing-key"

/-- Claims of the JWT built by `core/security.py` `create_oauth_access_token`. -/
structure OAuthClaims where
  sub : Uuid
  aud : Uuid
  scope : List String
  exp : Nat
deriving Repr, DecidableEq

/-- Models `jose.jwt.encode(claims, key, HS256)`: a deterministic encoding of
the claims, tagged with the signing key. -/
def jwt_encode (key : String) (c : OAuthClaims) : String :=
  "jwt(" ++ key ++ ")|" ++ toString c.sub ++ "|" ++ toString c.aud ++ "|" ++
    String.intercalate " " c.scope ++ "|" ++ toString c.exp

/-- Models the signature check of `jose.jwt.decode(token, key, [HS256])`: the
token verifies under `key` exactly when it was produced by `jwt_encode` with
the same key. -/
def jwt_verify (key : String) (token : String) : Bool :=
  str_starts_with token ("jwt(" ++ key ++ ")|")

/-- Embeds `core/security.py` `create_oauth_access_token`: claims
`{sub, aud, scope, exp}` signed with `SECRET_KEY`; `exp` is `now` plus the
supplied delta (default 1 hour). -/
def create_oauth_access_token (now : Nat) (user_id application_id : Uuid)
    (scopes : List String) (expires_delta : Option Nat) : String :=
  jwt_encode SECRET_KEY
    { sub := user_id, aud := application_id, scope := scopes,
      exp := now + expires_delta.getD 3600 }

/-- Embeds `OAuthService.create_authorization_code` (lines 57-81): builds an
`OAuthCode` row with `expires_at = now + 10 minutes` and `used` null, adds it
to the store, and returns the code string.  The random outputs of
`OAuthService.generate_code` (`secrets.token_urlsafe(32)`) and `uuid.uuid4`
are passed in as `code` and `code_id`. -/
def create_authorization_code (db : DB) (now : Nat) (code : String)
    (code_id : Uuid) (user : User) (app : Application)
    (redirect_uri : String) (scopes : List String) (state : Option String) :
    String × DB :=
  let oauth_code : OAuthCode :=
    { id := code_id, code := code, user_id := user.id,
      application_id := app.id, redirect_uri := redirect_uri,
      scopes := scopes, state := state, expires_at := now + 600,
      used := none }
  (code, { db with codes := db.codes ++ [oauth_code] })

/-- The token endpoint's success body (`TokenResponse` schema). -/
structure TokenResponse where
  access_token : String
  token_type : String
  expires_in : Nat
  refresh_token : String
  scope : String
deriving Repr, DecidableEq

/-- The read-and-validate phase of `OAuthService.exchange_code_for_tokens`
(lines 95-123): the SELECT of the code row followed by the in-memory checks,
in source order — code exists, not used, not expired, redirect_uri matches,
client resolves and matches, secret verifies.  Returns the snapshot the
mutation phase will operate on, or the OAuth error string. -/
def exchange_validate (db : DB) (now : Nat)
    (code client_id client_secret redirect_uri : String) :
    Except String (OAuthCode × Application) :=
  match db.codes.find? (fun c => c.code == code) with
  | none => .error "invalid_grant"
  | some oauth_code =>
    if oauth_code.used.isSome then .error "invalid_grant"
    else if now > oauth_code.expires_at then .error "invalid_grant"
    else if oauth_code.redirect_uri ≠ redirect_uri then .error "invalid_grant"
    else
      match get_application_by_client_id db client_id with
      | none => .error "invalid_client"
      | some app =>
        if app.id ≠ oauth_code.application_id then .error "invalid_client"
        else if ¬ verify_secret client_secret app.client_secret_hash then
          .error "invalid_client"
        else .ok (oauth_code, app)

/-- The mutation phase of `OAuthService.exchange_code_for_tokens`
(lines 125-148): `oauth_code.used = datetime.now(...)` — an UNCONDITIONAL
update of the row held in the snapshot, with no guard on the row's current
`used` value — followed by the token INSERT and commit.  The random refresh
token and token-row id are passed in as `fresh_refresh` / `token_id`. -/
def exchange_commit (db : DB) (now : Nat) (oauth_code : OAuthCode)
    (app : Application) (fresh_refresh : String) (token_id : Uuid) :
    TokenResponse × DB :=
  let expires_in : Nat := 3600
  let access_token :=
    create_oauth_access_token now oauth_code.user_id app.id oauth_code.scopes
      (some expires_in)
  let token_record : OAuthToken :=
    { id := token_id, user_id := oauth_code.user_id, application_id := app.id,
      access_token := access_token, refresh_token := fresh_refresh,
      scopes := oauth_code.scopes, expires_at := now + expires_in,
      revoked_at := none }
  ({ access_token := access_token, token_type := "Bearer",
     expires_in := expires_in, refresh_token := fresh_refresh,
     scope := String.intercalate " " oauth_code.scopes },
   { db with
       codes := db.codes.map
         (fun c => if c.id = oauth_code.id then { c with used := some now }
                   else c),
       tokens := db.tokens ++ [token_record] })

/-- Embeds `OAuthService.exchange_code_for_tokens` (lines 84-156) run to
completion as one sequential call: validate, then mutate.  Returns the
`(tokens_dict, error_message)` pair together with the store after commit. -/
def exchange_code_for_tokens (db : DB) (now : Nat)
    (code client_id client_secret redirect_uri : String)
    (fresh_refresh : String) (token_id : Uuid) :
    (Option TokenResponse × Option String) × DB :=
  match exchange_validate db now code client_id client_secret redirect_uri with
  | .error e => ((none, some e), db)
  | .ok (oauth_code, app) =>
    let r := exchange_commit db now oauth_code app fresh_refresh token_id
    ((some r.1, none), r.2)

/-- Embeds `OAuthService.refresh_tokens` (lines 158-221): SELECT the token row
by `refresh_token` with `revoked_at IS NULL`; validate the client; then set
`revoked_at = now` on that row, INSERT a fresh pair carrying the old row's
scopes, and return the new tokens. -/
def refresh_tokens (db : DB) (now : Nat)
    (refresh_token client_id client_secret : String)
    (fresh_refresh : String) (token_id : Uuid) :
    (Option TokenResponse × Option String) × DB :=
  match db.tokens.find?
      (fun t => t.refresh_token == refresh_token && t.revoked_at == none) with
  | none => ((none, some "invalid_grant"), db)
  | some token_record =>
    match get_application_by_client_id db client_id with
    | none => ((none, some "invalid_client"), db)
    | some app =>
      if app.id ≠ token_record.application_id then
        ((none, some "invalid_client"), db)
      else if ¬ verify_secret client_secret app.client_secret_hash then
        ((none, some "invalid_client"), db)
      else
        let expires_in : Nat := 3600
        let new_access_token :=
          create_oauth_access_token now token_record.user_id app.id
            token_record.scopes (some expires_in)
        let new_token_record : OAuthToken :=
          { id := token_id, user_id := token_record.user_id,
            application_id := app.id, access_token := new_access_token,
            refresh_token := fresh_refresh, scopes := token_record.scopes,
            expires_at := now + expires_in, revoked_at := none }
        ((some { access_token := new_access_token, token_type := "Bearer",
                 expires_in := expires_in, refresh_token := fresh_refresh,
                 scope := String.intercalate " " token_record.scopes },
          none),
         { db with
             tokens :=
               (db.tokens.map
                 (fun t => if t.id = token_record.id then
                             { t with revoked_at := some now }
                           else t)) ++ [new_token_record] })

/-- Embeds `OAuthService.get_user_by_access_token` (lines 223-247): SELECT the
token row by exact `access_token` with `revoked_at IS NULL`; reject if
`is_expired` (`now > expires_at`); then SELECT the user by id.  No call into
`jwt.decode` / signature verification appears in the source. -/
def get_user_by_access_token (db : DB) (now : Nat) (access_token : String) :
    Option User :=
  match db.tokens.find?
      (fun t => t.access_token == access_token && t.revoked_at == none) with
  | none => none
  | some token_record =>
    if now > token_record.expires_at then none
    else db.users.find? (fun u => u.id == token_record.user_id)

/-- The userinfo endpoint's success body (`UserInfoResponse` schema). -/
structure UserInfoResponse where
  sub : String
  email : String
  name : String
  preferred_username : String
  groups : List String
deriving Repr, DecidableEq

/-- The responses the `GET /oauth/authorize` handler can produce. -/
inductive AuthorizeResponse where
  /-- `RedirectResponse` back to the presented `redirect_uri` carrying
  `error=...&state=...` (`state or ''`). -/
  | redirect_error (uri err st : String)
  /-- `HTTPException 400` ("Invalid redirect_uri"). -/
  | bad_request (detail : String)
  /-- Redirect of an unauthenticated browser to `/auth/sso/login` with the
  original query echoed in `redirect_to`. -/
  | sso_login (response_type client_id redirect_uri scope st : String)
  /-- Redirect back to `redirect_uri` with the minted `code` and, when the
  presented state is truthy, the echoed `state`. -/
  | redirect_code (uri code : String) (st : Option String)
deriving Repr, DecidableEq

/-- Embeds `scope.split() if scope else ["openid"]` from the handler: Python's
empty string is falsy, and `str.split()` drops empty fields. -/
def parse_scopes (scope : String) : List String :=
  if scope = "" then ["openid"]
  else (scope.split (· = ' ')).filter (· ≠ "")

/-- Embeds the `GET /oauth/authorize` handler (`api/oauth.py` lines 39-101):
response_type check, client lookup, redirect_uri membership check,
authentication check, then code creation and redirect.  `current_user` is the
outcome of the `get_current_user_optional` dependency; `fresh_code` /
`code_id` stand for the random values drawn inside
`create_authorization_code`. -/
def authorize (db : DB) (now : Nat) (fresh_code : String) (code_id : Uuid)
    (response_type client_id redirect_uri scope : String)
    (state : Option String) (current_user : Option User) :
    AuthorizeResponse × DB :=
  if response_type ≠ "code" then
    (.redirect_error redirect_uri "unsupported_response_type" (state.getD ""),
     db)
  else
    match get_application_by_client_id db client_id with
    | none =>
      (.redirect_error redirect_uri "invalid_client" (state.getD ""), db)
    | some application =>
      if ¬ validate_redirect_uri application redirect_uri then
        (.bad_request "Invalid redirect_uri", db)
      else
        match current_user with
        | none =>
          (.sso_login response_type client_id redirect_uri scope
            (state.getD ""), db)
        | some user =>
          let scopes := parse_scopes scope
          let r :=
            create_authorization_code db now fresh_code code_id user
              application redirect_uri scopes state
          let st_param : Option String :=
            match state with
            | some s => if s = "" then none else some s
            | none => none
          (.redirect_code redirect_uri r.1 st_param, r.2)

/-- Embeds the `GET /oauth/userinfo` handler (`api/oauth.py` lines 167-195):
Bearer prefix check, token resolution, claims assembly. -/
def userinfo (db : DB) (now : Nat) (authorization : String) :
    Except String UserInfoResponse :=
  if ¬ str_starts_with authorization "Bearer " then
    .error "Invalid authorization header"
  else
    let access_token := str_drop authorization 7
    match get_user_by_access_token db now access_token with
    | none => .error "Invalid or expired token"
    | some user =>
      .ok { sub := toString user.id, email := user.email,
            name := user.display_name, preferred_username := user.email,
            groups := user.ad_groups }

/-- The responses the `POST /oauth/revoke` handler can produce. -/
inductive RevokeResponse where
  /-- The JSON body `{"message": "Token revoked"}`. -/
  | message (text : String)
  /-- `HTTPException 400` with the given detail. -/
  | http_error (detail : String)
deriving Repr, DecidableEq

/-- Embeds the `POST /oauth/revoke` handler (`api/oauth.py` lines 198-223):
client lookup, secret verification, then — the body ends at a TODO — a bare
success message.  The store is returned unchanged on every path. -/
def revoke_token (db : DB) (token : String) (token_type_hint : Option String)
    (client_id client_secret : String) : RevokeResponse × DB :=
  match get_application_by_client_id db client_id with
  | none => (.http_error "invalid_client", db)
  | some application =>
    if ¬ verify_secret client_secret application.client_secret_hash then
      (.http_error "invalid_client", db)
    else (.message "Token revoked", db)

/-- Modelled from the spec: the `AccessEvaluator` decision
`effective_access(subject, app) = app.is_public ∨ ∃ Direct(subject)→app ∨
∃ Group(g)→app : subject ∈ g.members` (spec §3 invariant, §4.2).  No
implementation of this decision function exists anywhere under `src/` — the
`ApplicationAccess` and `UserGroup` tables are only read by admin CRUD — so
the evaluator is formalised here from the spec's words, over the grant rows
and groups of the store. -/
def effective_access (db : DB) (subject : Uuid) (app : Application) : Bool :=
  app.is_public
  || db.access_rules.any
      (fun g => g.user_id == some subject && g.application_id == app.id)
  || db.access_rules.any
      (fun g =>
        match g.group_id with
        | some gid =>
          g.application_id == app.id &&
            db.groups.any (fun grp => grp.id == gid && grp.members.contains subject)
        | none => false)

/-- Two concurrent redemption attempts of the same code in the schedule the
unconditional mark-used write admits: both attempts run their SELECT-and-
validate phase against the same store before either commits, then both commit
in turn.  Each caller's observed outcome is returned (`some` = received a
token response, `none` = received the validation error). -/
def exchange_two_interleaved (db : DB) (now : Nat)
    (code client_id client_secret redirect_uri : String)
    (fresh_a fresh_b : String) (tid_a tid_b : Uuid) :
    (Option TokenResponse × Option TokenResponse) × DB :=
  match exchange_validate db now code client_id client_secret redirect_uri,
        exchange_validate db now code client_id client_secret redirect_uri with
  | .ok (oc_a, app_a), .ok (oc_b, app_b) =>
    let ra := exchange_commit db now oc_a app_a fresh_a tid_a
    let rb := exchange_commit ra.2 now oc_b app_b fresh_b tid_b
    ((some ra.1, some rb.1), rb.2)
  | .ok (oc_a, app_a), .error _ =>
    let ra := exchange_commit db now oc_a app_a fresh_a tid_a
    ((some ra.1, none), ra.2)
  | .error _, .ok (oc_b, app_b) =>
    let rb := exchange_commit db now oc_b app_b fresh_b tid_b
    ((none, some rb.1), rb.2)
  | .error _, .error _ => ((none, none), db)

/-- Whether the first stored row carrying this code string has been marked
used. -/
def code_spent (db : DB) (code : String) : Bool :=
  match db.codes.find? (fun c => c.code == code) with
  | some oauth_code => oauth_code.used.isSome
  | none => false

/-- The state-mutating protocol operations, for reasoning about states
reachable after a code has been consumed. -/
inductive Op where
  | exchange (now : Nat) (code client_id client_secret redirect_uri
      fresh_refresh : String) (token_id : Uuid)
  | refresh (now : Nat) (refresh_token client_id client_secret
      fresh_refresh : String) (token_id : Uuid)
  | authorizeReq (now : Nat) (fresh_code : String) (code_id : Uuid)
      (response_type client_id redirect_uri scope : String)
      (state : Option String) (current_user : Option User)
  | revoke (token : String) (token_type_hint : Option String)
      (client_id client_secret : String)

/-- The store after one protocol operation. -/
def applyOp (db : DB) : Op → DB
  | .exchange now code cid sec uri fr tid =>
    (exchange_code_for_tokens db now code cid sec uri fr tid).2
  | .refresh now rt cid sec fr tid =>
    (refresh_tokens db now rt cid sec fr tid).2
  | .authorizeReq now fc cid_ rt cid uri scope st cu =>
    (authorize db now fc cid_ rt cid uri scope st cu).2
  | .revoke t hint cid sec =>
    (revoke_token db t hint cid sec).2

/-- The store after a sequence of protocol operations. -/
def applyOps (db : DB) (ops : List Op) : DB := ops.foldl applyOp db

/-- Length of the common prefix of two character lists. -/
def common_prefix_len : List Char → List Char → Nat
  | a :: as, b :: bs => if a = b then common_prefix_len as bs + 1 else 0
  | _, _ => 0

/-- The order-free semantic condition for the `invalid_grant` class of
exchange failures: no stored row carries the code, or it is already used, or
past expiry, or bound to a different redirect_uri. -/
def exchange_grant_fail (db : DB) (now : Nat) (code redirect_uri : String) :
    Bool :=
  match db.codes.find? (fun c => c.code == code) with
  | none => true
  | some oauth_code =>
    oauth_code.used.isSome || decide (now > oauth_code.expires_at) ||
      decide (oauth_code.redirect_uri ≠ redirect_uri)

/-- The order-free semantic condition for the `invalid_client` class of
exchange failures, relative to the code row the exchange looked up: the
client_id resolves to no active application, or to one other than the code's
bound application, or the secret fails verification. -/
def exchange_client_fail (db : DB) (code client_id client_secret : String) :
    Bool :=
  match db.codes.find? (fun c => c.code == code) with
  | none => false
  | some oauth_code =>
    match get_application_by_client_id db client_id with
    | none => true
    | some app =>
      decide (app.id ≠ oauth_code.application_id) ||
        ¬ verify_secret client_secret app.client_secret_hash

/-! Concrete fixtures used by the witnesses and counterexamples: one active
non-public registered application, one user, and stores in various stages of
the protocol. -/

/-- An active, non-public registered client application. -/
def appA : Application :=
  { id := 1, client_id := "app-a", client_secret_hash := hash_secret "s3cret",
    redirect_uris := ["https://a.example/cb"], is_active := true,
    is_public := false }

/-- A local user. -/
def userU : User :=
  { id := 7, email := "u@example.com", display_name := "U User",
    ad_groups := [] }

/-- Store with `appA` and `userU` and nothing else: no grant rows, no groups,
no codes, no tokens. -/
def db0 : DB :=
  { applications := [appA], users := [userU], codes := [], tokens := [],
    access_rules := [], groups := [] }

/-- A pending authorization code bound to `userU`/`appA`. -/
def codeRow : OAuthCode :=
  { id := 10, code := "CODE-A", user_id := 7, application_id := 1,
    redirect_uri := "https://a.example/cb", scopes := ["openid"],
    state := none, expires_at := 600, used := none }

/-- Store holding the pending code `codeRow`. -/
def db1 : DB := { db0 with codes := [codeRow] }

/-- An unrevoked token pair whose `expires_at` lies in the past of the clock
value 200 used below. -/
def expiredTokenRow : OAuthToken :=
  { id := 30, user_id := 7, application_id := 1, access_token := "AT-OLD",
    refresh_token := "RT-OLD", scopes := ["openid"], expires_at := 100,
    revoked_at := none }

/-- Store holding the expired-but-unrevoked pair. -/
def db2 : DB := { db0 with tokens := [expiredTokenRow] }

/-- An unrevoked, unexpired token pair whose stored access token is not a
validly signed JWT at all. -/
def garbageTokenRow : OAuthToken :=
  { id := 40, user_id := 7, application_id := 1, access_token := "garbage",
    refresh_token := "RT-G", scopes := ["openid"], expires_at := 1000,
    revoked_at := none }

/-- Store holding the unsigned-token pair. -/
def db3 : DB := { db0 with tokens := [garbageTokenRow] }

/-- C1: for user 7 and application `app-a` (non-public, no Direct grant, no
Group grant) the spec's AccessEvaluator denies, yet `GET /authorize` mints an
authorization code, persists the code row, and redirects back with it — the
handler never consults any access decision.  (Evaluation of the code at the
claim's failing input.) -/
theorem authorize_mints_code_despite_no_effective_access :
    effective_access db0 7 appA = false ∧
    (authorize db0 0 "CODE-A" 10 "code" "app-a" "https://a.example/cb"
        "openid" none (some userU)).1
      = .redirect_code "https://a.example/cb" "CODE-A" none ∧
    ((authorize db0 0 "CODE-A" 10 "code" "app-a" "https://a.example/cb"
        "openid" none (some userU)).2.codes.any
      (fun c => c.code == "CODE-A")) = true := by
  refine ⟨rfl, rfl, rfl⟩

/-- C2: the mark-consumed write is an unconditional row update, not a
conditional compare-and-set, so under the read-read-write-write interleaving
of two redemptions of the same pending code both callers receive tokens —
where the claim demands exactly one success and `invalid_grant` for the
other.  (Evaluation of the code at the claim's failing schedule.) -/
theorem concurrent_exchange_both_callers_get_tokens :
    ((exchange_two_interleaved db1 0 "CODE-A" "app-a" "s3cret"
        "https://a.example/cb" "R1" "R2" 21 22).1.1.isSome = true) ∧
    ((exchange_two_interleaved db1 0 "CODE-A" "app-a" "s3cret"
        "https://a.example/cb" "R1" "R2" 21 22).1.2.isSome = true) := by
  refine ⟨rfl, rfl⟩

/-- C6 counterexample: a stored pair that is expired (expires_at 100 < clock
200) but unrevoked and bound to the authenticated client still refreshes
successfully — `refresh_tokens` never checks expiry, refuting the claim that
a violated unexpired-condition makes it fail. -/
theorem refresh_succeeds_on_expired_pair :
    expiredTokenRow.expires_at < 200 ∧
    expiredTokenRow.revoked_at = none ∧
    ((refresh_tokens db2 200 "RT-OLD" "app-a" "s3cret" "RT-NEW" 31).1.1.isSome
      = true) := by
  refine ⟨by decide, rfl, rfl⟩

/-- C7 counterexample: the stored access token "garbage" fails signature
verification, yet because it sits in an unrevoked, unexpired stored pair the
resolver returns the user and the userinfo endpoint answers with the full
claim set — no signature verification is performed during resolution. -/
theorem userinfo_resolves_token_that_fails_signature_verification :
    jwt_verify SECRET_KEY "garbage" = false ∧
    get_user_by_access_token db3 0 "garbage" = some userU ∧
    userinfo db3 0 "Bearer garbage"
      = .ok { sub := "7", email := "u@example.com", name := "U User",
              preferred_username := "u@example.com", groups := [] } := by
  refine ⟨rfl, rfl, rfl⟩

/-- C9 counterexample: two presented secrets, both rejected against the same
stored hash, on which the comparison the code performs (short-circuit string
equality of SHA-256 hex digests) does a different number of character
comparisons — its behaviour depends on how long a prefix of the digest
matches — while the fixed-time primitive the claim names would cost the same
on both. -/
theorem secret_comparison_cost_depends_on_matching_prefix :
    verify_secret "zbcd" (hash_secret "abcd") = false ∧
    verify_secret "abcz" (hash_secret "abcd") = false ∧
    (pyStrEqSteps (sha256_hexdigest "zbcd") (hash_secret "abcd")).1
      ≠ (pyStrEqSteps (sha256_hexdigest "abcz") (hash_secret "abcd")).1 ∧
    (compareDigestSteps (sha256_hexdigest "zbcd") (hash_secret "abcd")).1
      = (compareDigestSteps (sha256_hexdigest "abcz") (hash_secret "abcd")).1 := by
  refine ⟨rfl, rfl, by decide, rfl⟩

/-- C8: `POST /revoke` with valid client credentials returns the fixed
success message and the store unchanged — every stored token
record, including every `revoked_at`, is exactly as before the call. -/
theorem revoke_endpoint_leaves_store_unchanged (db : DB) (t : String)
    (hint : Option String) (cid sec : String) (app : Application)
    (happ : get_application_by_client_id db cid = some app)
    (hsec : verify_secret sec app.client_secret_hash = true) :
    revoke_token db t hint cid sec = (.message "Token revoked", db) := by
  simp [revoke_token, happ, hsec]

/-- C8 witness: concrete store and credentials on which the hypotheses hold
and the revoke endpoint returns the untouched store. -/
theorem revoke_endpoint_leaves_store_unchanged_witness :
    get_application_by_client_id db0 "app-a" = some appA ∧
    verify_secret "s3cret" appA.client_secret_hash = true ∧
    revoke_token db0 "sometoken" none "app-a" "s3cret"
      = (.message "Token revoked", db0) :=
  ⟨rfl, rfl,
   revoke_endpoint_leaves_store_unchanged db0 "sometoken" none "app-a"
     "s3cret" appA rfl rfl⟩

/-- C10: a non-"code" response_type, or a client_id resolving to no active
application, makes `GET /authorize` redirect the error to the presented
redirect_uri for every presented redirect_uri — registered or not — showing
the set-membership check runs only after those two checks pass. -/
theorem authorize_error_redirects_precede_redirect_uri_check (db : DB)
    (now : Nat) (fc : String) (cid_ : Uuid)
    (response_type client_id redirect_uri scope : String)
    (state : Option String) (cu : Option User) :
    (response_type ≠ "code" →
      authorize db now fc cid_ response_type client_id redirect_uri scope
          state cu
        = (.redirect_error redirect_uri "unsupported_response_type"
            (state.getD ""), db)) ∧
    (response_type = "code" →
      get_application_by_client_id db client_id = none →
      authorize db now fc cid_ response_type client_id redirect_uri scope
          state cu
        = (.redirect_error redirect_uri "invalid_client" (state.getD ""),
           db)) := by
  constructor
  · intro h
    simp [authorize, h]
  · intro h1 h2
    simp [authorize, h1, h2]

/-- C10 witness: concrete requests carrying an unregistered redirect_uri —
one with response_type "token", one with an unknown client_id — both answered
by an error redirect to that unregistered redirect_uri. -/
theorem authorize_error_redirects_precede_redirect_uri_check_witness :
    (("token" : String) ≠ "code" ∧
      authorize db0 0 "X" 11 "token" "app-a" "https://evil.example/" "openid"
          (some "st") none
        = (.redirect_error "https://evil.example/" "unsupported_response_type"
            "st", db0)) ∧
    (get_application_by_client_id db0 "unknown-client" = none ∧
      authorize db0 0 "X" 11 "code" "unknown-client" "https://evil.example/"
          "openid" none none
        = (.redirect_error "https://evil.example/" "invalid_client" "",
           db0)) :=
  ⟨⟨by decide,
    (authorize_error_redirects_precede_redirect_uri_check db0 0 "X" 11 "token"
      "app-a" "https://evil.example/" "openid" (some "st") none).1
      (by decide)⟩,
   ⟨rfl,
    (authorize_error_redirects_precede_redirect_uri_check db0 0 "X" 11 "code"
      "unknown-client" "https://evil.example/" "openid" none none).2 rfl
      rfl⟩⟩

/-- C3: `exchange_code_for_tokens` fails with `invalid_grant` exactly when the
code is missing, used, expired, or bound to a different redirect_uri; it fails
with `invalid_client` exactly when those four checks all pass and the client
lookup or secret verification fails (the client checks are reached only after
the first four); it succeeds exactly when every check passes; and codes are
issued with `expires_at` = issuance time + 10 minutes and a null consumed
timestamp. -/
theorem exchange_validation_order_and_code_ttl (db : DB) (now : Nat)
    (code cid sec uri fr : String) (tid : Uuid) :
    ((exchange_code_for_tokens db now code cid sec uri fr tid).1.2
        = some "invalid_grant"
      ↔ exchange_grant_fail db now code uri = true) ∧
    ((exchange_code_for_tokens db now code cid sec uri fr tid).1.2
        = some "invalid_client"
      ↔ exchange_grant_fail db now code uri = false ∧
        exchange_client_fail db code cid sec = true) ∧
    ((exchange_code_for_tokens db now code cid sec uri fr tid).1.1.isSome
        = true
      ↔ exchange_grant_fail db now code uri = false ∧
        exchange_client_fail db code cid sec = false) ∧
    (∀ (c : String) (cid2 : Uuid) (u : User) (a : Application) (ru : String)
        (sc : List String) (st : Option String),
      ∃ oc, (create_authorization_code db now c cid2 u a ru sc st).2.codes
          = db.codes ++ [oc] ∧
        oc.expires_at = now + 600 ∧ oc.used = none ∧ oc.code = c ∧
        oc.redirect_uri = ru) := by
  refine ⟨?_, ?_, ?_, fun c cid2 u a ru sc st => ⟨_, rfl, rfl, rfl, rfl, rfl⟩⟩
  all_goals
    simp only [exchange_code_for_tokens, exchange_validate,
      exchange_grant_fail, exchange_client_fail]
    cases hfind : db.codes.find? (fun x => x.code == code) with
    | none => simp
    | some oc =>
      by_cases h1 : oc.used.isSome = true
      · simp [h1]
      · by_cases h2 : now > oc.expires_at
        · simp [h1, h2]
        · by_cases h3 : oc.redirect_uri ≠ uri
          · simp [h1, h2, h3]
          · cases happ : get_application_by_client_id db cid with
            | none => simp [h1, h2, h3, happ]
            | some app =>
              by_cases h4 : app.id ≠ oc.application_id
              · simp [h1, h2, h3, happ, h4]
              · by_cases h5 : verify_secret sec app.client_secret_hash = true
                · simp [h1, h2, h3, happ, h4, h5, exchange_commit]
                · simp [h1, h2, h3, happ, h4, h5]

/-- C3 witness: the error-class characterisation and the 10-minute TTL
instantiated at the concrete pending-code store. -/
theorem exchange_validation_order_and_code_ttl_witness :
    ((exchange_code_for_tokens db1 0 "CODE-A" "app-a" "s3cret"
        "https://a.example/cb" "R1" 21).1.2 = some "invalid_grant"
      ↔ exchange_grant_fail db1 0 "CODE-A" "https://a.example/cb" = true) ∧
    ((exchange_code_for_tokens db1 0 "CODE-A" "app-a" "s3cret"
        "https://a.example/cb" "R1" 21).1.2 = some "invalid_client"
      ↔ exchange_grant_fail db1 0 "CODE-A" "https://a.example/cb" = false ∧
        exchange_client_fail db1 "CODE-A" "app-a" "s3cret" = true) ∧
    ((exchange_code_for_tokens db1 0 "CODE-A" "app-a" "s3cret"
        "https://a.example/cb" "R1" 21).1.1.isSome = true
      ↔ exchange_grant_fail db1 0 "CODE-A" "https://a.example/cb" = false ∧
        exchange_client_fail db1 "CODE-A" "app-a" "s3cret" = false) ∧
    (∀ (c : String) (cid2 : Uuid) (u : User) (a : Application) (ru : String)
        (sc : List String) (st : Option String),
      ∃ oc, (create_authorization_code db1 0 c cid2 u a ru sc st).2.codes
          = db1.codes ++ [oc] ∧
        oc.expires_at = 0 + 600 ∧ oc.used = none ∧ oc.code = c ∧
        oc.redirect_uri = ru) :=
  exchange_validation_order_and_code_ttl db1 0 "CODE-A" "app-a" "s3cret"
    "https://a.example/cb" "R1" 21

theorem exchange_validate_ok_find {db : DB} {now : Nat}
    {code cid sec uri : String} {oc : OAuthCode} {app : Application}
    (h : exchange_validate db now code cid sec uri = .ok (oc, app)) :
    db.codes.find? (fun c => c.code == code) = some oc := by
  unfold exchange_validate at h
  cases hfind : db.codes.find? (fun c => c.code == code) with
  | none => rw [hfind] at h; exact absurd h (by simp)
  | some oc' =>
    rw [hfind] at h
    dsimp only at h
    split_ifs at h
    cases happ : get_application_by_client_id db cid with
    | none => rw [happ] at h; exact absurd h (by simp)
    | some app' =>
      rw [happ] at h
      dsimp only at h
      split_ifs at h
      cases h
      rfl

theorem refresh_tokens_preserves_codes (db : DB) (now : Nat)
    (rt cid sec fr : String) (tid : Uuid) :
    (refresh_tokens db now rt cid sec fr tid).2.codes = db.codes := by
  unfold refresh_tokens
  repeat' split
  all_goals rfl

theorem revoke_token_preserves_db (db : DB) (t : String) (hint : Option String)
    (cid sec : String) : (revoke_token db t hint cid sec).2 = db := by
  unfold revoke_token
  repeat' split
  all_goals rfl

theorem authorize_appends_codes (db : DB) (now : Nat) (fc : String)
    (cid2 : Uuid) (rt cid uri scope : String) (st : Option String)
    (cu : Option User) :
    ∃ ext, (authorize db now fc cid2 rt cid uri scope st cu).2.codes
      = db.codes ++ ext := by
  by_cases h1 : rt ≠ "code"
  · exact ⟨[], by simp [authorize, h1]⟩
  · cases happ : get_application_by_client_id db cid with
    | none => exact ⟨[], by simp [authorize, h1, happ]⟩
    | some app =>
      by_cases h2 : validate_redirect_uri app uri = true
      · cases cu with
        | none => exact ⟨[], by simp [authorize, h1, happ, h2]⟩
        | some user =>
          exact ⟨[_], by
            simp [authorize, h1, happ, h2, create_authorization_code]
            rfl⟩
      · exact ⟨[], by simp [authorize, h1, happ, h2]⟩

theorem code_spent_of_exchange_success {db : DB} {now : Nat}
    {code cid sec uri fr : String} {tid : Uuid}
    (h : (exchange_code_for_tokens db now code cid sec uri fr tid).1.1.isSome
      = true) :
    code_spent (exchange_code_for_tokens db now code cid sec uri fr tid).2 code
      = true := by
  unfold exchange_code_for_tokens at h ⊢
  cases hv : exchange_validate db now code cid sec uri with
  | error e => rw [hv] at h; simp at h
  | ok pr =>
    obtain ⟨oc, app⟩ := pr
    have hfind := exchange_validate_ok_find hv
    unfold code_spent exchange_commit
    have hfuns : (fun c : OAuthCode => c.code == code) ∘
        (fun c : OAuthCode =>
          if c.id = oc.id then { c with used := some now } else c)
        = (fun c : OAuthCode => c.code == code) := by
      funext c
      by_cases hid : c.id = oc.id <;> simp [hid]
    simp only [List.find?_map, hfuns, hfind, Option.map_some]
    by_cases hid : oc.id = oc.id <;> simp [hid]

theorem code_spent_applyOp {db : DB} {c : String} (op : Op)
    (h : code_spent db c = true) : code_spent (applyOp db op) c = true := by
  cases op with
  | exchange now code cid sec uri fr tid =>
    simp only [applyOp]
    unfold exchange_code_for_tokens
    cases hv : exchange_validate db now code cid sec uri with
    | error e => exact h
    | ok pr =>
      obtain ⟨oc, app⟩ := pr
      unfold code_spent at h ⊢
      unfold exchange_commit
      have hfuns : (fun x : OAuthCode => x.code == c) ∘
          (fun x : OAuthCode =>
            if x.id = oc.id then { x with used := some now } else x)
          = (fun x : OAuthCode => x.code == c) := by
        funext x
        by_cases hid : x.id = oc.id <;> simp [hid]
      cases hfind : db.codes.find? (fun x => x.code == c) with
      | none => rw [hfind] at h; exact absurd h (by simp)
      | some oc0 =>
        rw [hfind] at h
        simp at h
        simp only [List.find?_map, hfuns, hfind, Option.map_some]
        by_cases hid : oc0.id = oc.id <;> simp [hid, h]
  | refresh now rt cid sec fr tid =>
    simp only [applyOp]
    unfold code_spent at h ⊢
    rw [refresh_tokens_preserves_codes]
    exact h
  | authorizeReq now fc cid2 rt cid uri scope st cu =>
    simp only [applyOp]
    unfold code_spent at h ⊢
    obtain ⟨ext, hext⟩ :=
      authorize_appends_codes db now fc cid2 rt cid uri scope st cu
    rw [hext, List.find?_append]
    cases hfind : db.codes.find? (fun x => x.code == c) with
    | none => rw [hfind] at h; exact absurd h (by simp)
    | some oc0 =>
      rw [hfind] at h
      simp at h
      simp [h]
  | revoke t hint cid sec =>
    simp only [applyOp]
    rw [revoke_token_preserves_db]
    exact h

theorem code_spent_applyOps {db : DB} {c : String} (ops : List Op)
    (h : code_spent db c = true) : code_spent (applyOps db ops) c = true := by
  induction ops generalizing db with
  | nil => exact h
  | cons op rest ih => exact ih (code_spent_applyOp op h)

theorem exchange_invalid_grant_of_spent (db : DB) (now : Nat)
    (code cid sec uri fr : String) (tid : Uuid)
    (h : code_spent db code = true) :
    exchange_code_for_tokens db now code cid sec uri fr tid
      = ((none, some "invalid_grant"), db) := by
  unfold code_spent at h
  cases hfind : db.codes.find? (fun c => c.code == code) with
  | none => rw [hfind] at h; exact absurd h (by simp)
  | some oc =>
    rw [hfind] at h
    simp at h
    unfold exchange_code_for_tokens exchange_validate
    rw [hfind]
    simp [h]

/-- C4: once one exchange of a code has succeeded, every later sequential
exchange attempt of the same code — after any further sequence of protocol
operations, and whatever credentials or redirect_uri are presented — returns
`invalid_grant`, returns no tokens, and leaves the store unchanged. -/
theorem consumed_code_rejected_forever (db : DB) (now : Nat)
    (code cid sec uri fr : String) (tid : Uuid)
    (hsucc : (exchange_code_for_tokens db now code cid sec uri fr tid).1.1.isSome
      = true)
    (ops : List Op) (now' : Nat) (cid' sec' uri' fr' : String) (tid' : Uuid) :
    exchange_code_for_tokens
        (applyOps (exchange_code_for_tokens db now code cid sec uri fr tid).2
          ops) now' code cid' sec' uri' fr' tid'
      = ((none, some "invalid_grant"),
         applyOps (exchange_code_for_tokens db now code cid sec uri fr tid).2
           ops) :=
  exchange_invalid_grant_of_spent _ now' code cid' sec' uri' fr' tid'
    (code_spent_applyOps ops (code_spent_of_exchange_success hsucc))

/-- C4 witness: concrete pending code that exchanges successfully once and is
rejected with `invalid_grant` on the second attempt, even with the same valid
credentials. -/
theorem consumed_code_rejected_forever_witness :
    ((exchange_code_for_tokens db1 0 "CODE-A" "app-a" "s3cret"
        "https://a.example/cb" "R1" 21).1.1.isSome = true) ∧
    exchange_code_for_tokens
        (applyOps (exchange_code_for_tokens db1 0 "CODE-A" "app-a" "s3cret"
          "https://a.example/cb" "R1" 21).2 [])
        0 "CODE-A" "app-a" "s3cret" "https://a.example/cb" "R2" 22
      = ((none, some "invalid_grant"),
         applyOps (exchange_code_for_tokens db1 0 "CODE-A" "app-a" "s3cret"
           "https://a.example/cb" "R1" 21).2 []) :=
  ⟨rfl,
   consumed_code_rejected_forever db1 0 "CODE-A" "app-a" "s3cret"
     "https://a.example/cb" "R1" 21 rfl [] 0 "app-a" "s3cret"
     "https://a.example/cb" "R2" 22⟩

/-- C5: a successful `refresh_tokens` call rotates: it returns a fresh pair
whose response carries the new refresh token and the old pair's scope string,
marks the old stored pair `revoked_at = now`, inserts a new stored pair with
scopes identical to the old pair's, and afterwards any presentation of the
old refresh token — under any credentials — returns `invalid_grant`.
`huniq` reflects the unique index on the `refresh_token` column, and
`hfr` that the freshly drawn random refresh token differs from the old one. -/
theorem refresh_rotates_and_invalidates_old_token (db : DB) (now : Nat)
    (rt cid sec fr : String) (tid : Uuid) (tr : OAuthToken)
    (app : Application)
    (hfind : db.tokens.find?
      (fun t => t.refresh_token == rt && t.revoked_at == none) = some tr)
    (happ : get_application_by_client_id db cid = some app)
    (hbind : app.id = tr.application_id)
    (hsec : verify_secret sec app.client_secret_hash = true)
    (huniq : ∀ t ∈ db.tokens, t.refresh_token = rt → t.revoked_at = none →
      t = tr)
    (hfr : fr ≠ rt) :
    (∃ resp, (refresh_tokens db now rt cid sec fr tid).1 = (some resp, none) ∧
      resp.refresh_token = fr ∧
      resp.scope = String.intercalate " " tr.scopes) ∧
    (∃ t' ∈ (refresh_tokens db now rt cid sec fr tid).2.tokens,
      t'.id = tr.id ∧ t'.revoked_at = some now) ∧
    (∃ t' ∈ (refresh_tokens db now rt cid sec fr tid).2.tokens,
      t'.refresh_token = fr ∧ t'.scopes = tr.scopes ∧ t'.revoked_at = none) ∧
    (∀ (now' : Nat) (cid' sec' fr' : String) (tid' : Uuid),
      (refresh_tokens (refresh_tokens db now rt cid sec fr tid).2 now' rt
        cid' sec' fr' tid').1 = (none, some "invalid_grant")) := by
  have htr : tr ∈ db.tokens := List.mem_of_find?_eq_some hfind
  have hres : refresh_tokens db now rt cid sec fr tid =
      ((some { access_token := create_oauth_access_token now tr.user_id app.id
                 tr.scopes (some 3600),
               token_type := "Bearer", expires_in := 3600,
               refresh_token := fr,
               scope := String.intercalate " " tr.scopes },
        none),
       { db with
           tokens :=
             (db.tokens.map
               (fun t => if t.id = tr.id then { t with revoked_at := some now }
                         else t)) ++
               [{ id := tid, user_id := tr.user_id, application_id := app.id,
                  access_token := create_oauth_access_token now tr.user_id
                    app.id tr.scopes (some 3600),
                  refresh_token := fr, scopes := tr.scopes,
                  expires_at := now + 3600, revoked_at := none }] }) := by
    unfold refresh_tokens
    rw [hfind, happ]
    simp [hbind, hsec]
  have htokens : (refresh_tokens db now rt cid sec fr tid).2.tokens
      = (db.tokens.map
          (fun t => if t.id = tr.id then { t with revoked_at := some now }
                    else t)) ++
        [{ id := tid, user_id := tr.user_id, application_id := app.id,
           access_token := create_oauth_access_token now tr.user_id app.id
             tr.scopes (some 3600),
           refresh_token := fr, scopes := tr.scopes,
           expires_at := now + 3600, revoked_at := none }] := by
    rw [hres]
  refine ⟨⟨_, by rw [hres], rfl, rfl⟩, ?_, ?_, ?_⟩
  · refine ⟨{ tr with revoked_at := some now }, ?_, rfl, rfl⟩
    rw [htokens]
    refine List.mem_append_left _ ?_
    have heq : (fun t : OAuthToken =>
        if t.id = tr.id then { t with revoked_at := some now } else t) tr
        = { tr with revoked_at := some now } := by simp
    exact heq ▸ List.mem_map_of_mem _ htr
  · have hmem : ({ id := tid, user_id := tr.user_id,
                   application_id := app.id,
                   access_token := create_oauth_access_token now tr.user_id
                     app.id tr.scopes (some 3600),
                   refresh_token := fr, scopes := tr.scopes,
                   expires_at := now + 3600,
                   revoked_at := none } : OAuthToken)
        ∈ (refresh_tokens db now rt cid sec fr tid).2.tokens := by
      rw [htokens]
      exact List.mem_append_right _ (List.mem_singleton.mpr rfl)
    exact ⟨_, hmem, rfl, rfl, rfl⟩
  · intro now' cid' sec' fr' tid'
    set db2 := (refresh_tokens db now rt cid sec fr tid).2 with hdb2
    have hnone : db2.tokens.find?
        (fun t => t.refresh_token == rt && t.revoked_at == none) = none := by
      rw [htokens, List.find?_eq_none]
      intro t ht
      rcases List.mem_append.mp ht with hmap | hnew
      · obtain ⟨t0, ht0, hft⟩ := List.mem_map.mp hmap
        by_cases hid : t0.id = tr.id
        · rw [if_pos hid] at hft
          rw [← hft]
          simp
        · rw [if_neg hid] at hft
          intro hcontra
          apply hid
          have h1 : t0.refresh_token = rt := by
            rw [hft]
            simpa using ((Bool.and_eq_true _ _).mp hcontra).1
          have h2 : t0.revoked_at = none := by
            rw [hft]
            simpa using ((Bool.and_eq_true _ _).mp hcontra).2
          exact congrArg OAuthToken.id (huniq t0 ht0 h1 h2)
      · rw [List.mem_singleton.mp hnew]
        simp [hfr]
    unfold refresh_tokens
    rw [hnone]

/-- An unrevoked, unexpired token pair used by the rotation witness. -/
def validTokenRow : OAuthToken :=
  { id := 50, user_id := 7, application_id := 1, access_token := "AT-V",
    refresh_token := "RT-V", scopes := ["openid", "profile"],
    expires_at := 5000, revoked_at := none }

/-- Store holding the valid pair. -/
def db4 : DB := { db0 with tokens := [validTokenRow] }

/-- C5 witness: a concrete rotation — the response carries the new refresh
token and the old scopes, the old row is revoked, a new row with identical
scopes is inserted, and the old refresh token thereafter yields
`invalid_grant`. -/
theorem refresh_rotates_and_invalidates_old_token_witness :
    db4.tokens.find?
      (fun t => t.refresh_token == "RT-V" && t.revoked_at == none)
      = some validTokenRow ∧
    get_application_by_client_id db4 "app-a" = some appA ∧
    (("RT-NEW" : String) ≠ "RT-V") ∧
    ((∃ resp, (refresh_tokens db4 1000 "RT-V" "app-a" "s3cret" "RT-NEW" 51).1
        = (some resp, none) ∧
      resp.refresh_token = "RT-NEW" ∧
      resp.scope = String.intercalate " " validTokenRow.scopes) ∧
     (∃ t' ∈ (refresh_tokens db4 1000 "RT-V" "app-a" "s3cret" "RT-NEW"
        51).2.tokens, t'.id = validTokenRow.id ∧ t'.revoked_at = some 1000) ∧
     (∃ t' ∈ (refresh_tokens db4 1000 "RT-V" "app-a" "s3cret" "RT-NEW"
        51).2.tokens, t'.refresh_token = "RT-NEW" ∧
        t'.scopes = validTokenRow.scopes ∧ t'.revoked_at = none) ∧
     (∀ (now' : Nat) (cid' sec' fr' : String) (tid' : Uuid),
      (refresh_tokens
        (refresh_tokens db4 1000 "RT-V" "app-a" "s3cret" "RT-NEW" 51).2 now'
        "RT-V" cid' sec' fr' tid').1 = (none, some "invalid_grant"))) :=
  ⟨rfl, rfl, by decide,
   refresh_rotates_and_invalidates_old_token db4 1000 "RT-V" "app-a" "s3cret"
     "RT-NEW" 51 validTokenRow appA rfl rfl rfl rfl (by decide) (by decide)⟩

/-- C6 amended: `refresh_tokens` succeeds exactly when a stored pair matching
the presented refresh token with `revoked_at` null exists, the client_id
resolves to an active application equal to the pair's bound application, and
the secret verifies — the stored pair's expiry is NOT among the conditions;
it fails `invalid_grant` exactly when no unrevoked matching pair exists, and
`invalid_client` exactly when a pair exists but the client conditions fail. -/
theorem refresh_success_requires_only_unrevoked_match_and_client (db : DB)
    (now : Nat) (rt cid sec fr : String) (tid : Uuid) :
    ((refresh_tokens db now rt cid sec fr tid).1.1.isSome = true
      ↔ ∃ tr app,
          db.tokens.find?
            (fun t => t.refresh_token == rt && t.revoked_at == none)
            = some tr ∧
          get_application_by_client_id db cid = some app ∧
          app.id = tr.application_id ∧
          verify_secret sec app.client_secret_hash = true) ∧
    ((refresh_tokens db now rt cid sec fr tid).1.2 = some "invalid_grant"
      ↔ db.tokens.find?
          (fun t => t.refresh_token == rt && t.revoked_at == none) = none) ∧
    ((refresh_tokens db now rt cid sec fr tid).1.2 = some "invalid_client"
      ↔ ∃ tr, db.tokens.find?
            (fun t => t.refresh_token == rt && t.revoked_at == none)
            = some tr ∧
          ¬ ∃ app, get_application_by_client_id db cid = some app ∧
            app.id = tr.application_id ∧
            verify_secret sec app.client_secret_hash = true) := by
  cases hfind : db.tokens.find?
      (fun t => t.refresh_token == rt && t.revoked_at == none) with
  | none => simp [refresh_tokens, hfind]
  | some tr =>
    cases happ : get_application_by_client_id db cid with
    | none => simp [refresh_tokens, hfind, happ]
    | some app =>
      by_cases h1 : app.id = tr.application_id
      · by_cases h2 : verify_secret sec app.client_secret_hash = true
        · simp [refresh_tokens, hfind, happ, h1, h2]
        · simp [refresh_tokens, hfind, happ, h1, h2]
      · simp [refresh_tokens, hfind, happ, h1]

/-- C7 amended: resolving a bearer access token is an exact stored-token
lookup — `some user` exactly when an unrevoked stored pair carries that exact
token string, the pair is unexpired, and its user exists; no signature
verification takes part in the decision.  When resolution fails, the userinfo
endpoint rejects the request. -/
theorem token_resolution_is_stored_pair_lookup (db : DB) (now : Nat)
    (tok : String) (u : User) :
    (get_user_by_access_token db now tok = some u
      ↔ ∃ tr, db.tokens.find?
            (fun t => t.access_token == tok && t.revoked_at == none)
            = some tr ∧
          ¬ now > tr.expires_at ∧
          db.users.find? (fun x => x.id == tr.user_id) = some u) ∧
    (get_user_by_access_token db now tok = none →
      userinfo db now ("Bearer " ++ tok) = .error "Invalid or expired token") := by
  constructor
  · unfold get_user_by_access_token
    cases hfind : db.tokens.find?
        (fun t => t.access_token == tok && t.revoked_at == none) with
    | none => simp
    | some tr =>
      by_cases hexp : now > tr.expires_at
      · simp [hexp]
      · simp [hexp]
        exact fun _ => Nat.not_lt.mp hexp
  · intro hnone
    unfold userinfo
    have hpre : str_starts_with ("Bearer " ++ tok) "Bearer " = true := by
      unfold str_starts_with
      rw [String.data_append]
      exact List.isPrefixOf_iff_prefix.mpr (List.prefix_append _ _)
    rw [hpre]
    have hdrop : str_drop ("Bearer " ++ tok) 7 = tok := by
      unfold str_drop
      rw [String.data_append]
      rw [List.drop_left' (by rfl)]
    simp only [Bool.not_true, hdrop]
    rw [hnone]
    simp

/-- C6 amended-claim witness: the characterisation instantiated at the
expired-but-unrevoked pair, where the success side of the iff is inhabited
although the pair is past expiry. -/
theorem refresh_success_requires_only_unrevoked_match_and_client_witness :
    ((refresh_tokens db2 200 "RT-OLD" "app-a" "s3cret" "RT-NEW"
        31).1.1.isSome = true
      ↔ ∃ tr app,
          db2.tokens.find?
            (fun t => t.refresh_token == "RT-OLD" && t.revoked_at == none)
            = some tr ∧
          get_application_by_client_id db2 "app-a" = some app ∧
          app.id = tr.application_id ∧
          verify_secret "s3cret" app.client_secret_hash = true) ∧
    ((refresh_tokens db2 200 "RT-OLD" "app-a" "s3cret" "RT-NEW" 31).1.2
        = some "invalid_grant"
      ↔ db2.tokens.find?
          (fun t => t.refresh_token == "RT-OLD" && t.revoked_at == none)
          = none) ∧
    ((refresh_tokens db2 200 "RT-OLD" "app-a" "s3cret" "RT-NEW" 31).1.2
        = some "invalid_client"
      ↔ ∃ tr, db2.tokens.find?
            (fun t => t.refresh_token == "RT-OLD" && t.revoked_at == none)
            = some tr ∧
          ¬ ∃ app, get_application_by_client_id db2 "app-a" = some app ∧
            app.id = tr.application_id ∧
            verify_secret "s3cret" app.client_secret_hash = true) :=
  refresh_success_requires_only_unrevoked_match_and_client db2 200 "RT-OLD"
    "app-a" "s3cret" "RT-NEW" 31

/-- C7 amended-claim witness: the lookup characterisation instantiated at the
store holding the unsigned stored token. -/
theorem token_resolution_is_stored_pair_lookup_witness :
    (get_user_by_access_token db3 0 "garbage" = some userU
      ↔ ∃ tr, db3.tokens.find?
            (fun t => t.access_token == "garbage" && t.revoked_at == none)
            = some tr ∧
          ¬ (0 : Nat) > tr.expires_at ∧
          db3.users.find? (fun x => x.id == tr.user_id) = some userU) ∧
    (get_user_by_access_token db3 0 "garbage" = none →
      userinfo db3 0 ("Bearer " ++ "garbage")
        = .error "Invalid or expired token") :=
  token_resolution_is_stored_pair_lookup db3 0 "garbage" userU

theorem pyEqScan_eq_true_iff (a b : List Char) :
    (pyEqScan a b).2 = true ↔ a = b := by
  induction a generalizing b with
  | nil => cases b <;> simp [pyEqScan]
  | cons x xs ih =>
    cases b with
    | nil => simp [pyEqScan]
    | cons y ys =>
      by_cases hxy : x = y
      · subst hxy
        simp [pyEqScan, ih]
      · simp [pyEqScan, hxy]

theorem pyEqScan_cost (a b : List Char) (hlen : a.length = b.length)
    (hne : a ≠ b) : pyEqScan a b = (common_prefix_len a b + 1, false) := by
  induction a generalizing b with
  | nil =>
    cases b with
    | nil => exact absurd rfl hne
    | cons y ys => simp at hlen
  | cons x xs ih =>
    cases b with
    | nil => simp at hlen
    | cons y ys =>
      by_cases hxy : x = y
      · subst hxy
        have hlen' : xs.length = ys.length := by simpa using hlen
        have hne' : xs ≠ ys := fun hcon => hne (by rw [hcon])
        simp [pyEqScan, common_prefix_len, ih ys hlen' hne']
      · simp [pyEqScan, common_prefix_len, hxy]

/-- C9 amended: `verify_secret` is ordinary string equality of the SHA-256
hex digest against the stored hash, and the comparison it performs
short-circuits: on equal-length unequal digest strings it does exactly
(length of the common prefix) + 1 character comparisons before rejecting, so
its cost depends on how long a prefix of the digest matches — it is not a
fixed-time primitive. -/
theorem verify_secret_is_short_circuit_digest_equality (s h : String)
    (a b : String) (hlen : a.length = b.length) (hne : a ≠ b) :
    (verify_secret s h = true ↔ sha256_hexdigest s = h) ∧
    pyStrEqSteps a b = (common_prefix_len a.data b.data + 1, false) := by
  constructor
  · unfold verify_secret pyStrEqSteps
    by_cases hl : (sha256_hexdigest s).length = h.length
    · rw [if_pos hl, pyEqScan_eq_true_iff]
      exact ⟨String.ext, fun hc => by rw [hc]⟩
    · rw [if_neg hl]
      simp only [Bool.false_eq_true, false_iff]
      intro hc
      exact hl (by rw [hc])
  · unfold pyStrEqSteps
    rw [if_pos hlen]
    exact pyEqScan_cost a.data b.data hlen
      (fun hc => hne (String.ext hc))

/-- C9 amended-claim witness: concrete equal-length digests with a 7- and a
10-character common prefix against the same stored hash, instantiating the
cost characterisation. -/
theorem verify_secret_is_short_circuit_digest_equality_witness :
    (("sha256$zbcd" : String).length = ("sha256$abcd" : String).length) ∧
    (("sha256$zbcd" : String) ≠ "sha256$abcd") ∧
    ((verify_secret "zbcd" (hash_secret "abcd") = true
        ↔ sha256_hexdigest "zbcd" = hash_secret "abcd") ∧
      pyStrEqSteps "sha256$zbcd" "sha256$abcd"
        = (common_prefix_len ("sha256$zbcd" : String).data
            ("sha256$abcd" : String).data + 1, false)) :=
  ⟨by decide, by decide,
   verify_secret_is_short_circuit_digest_equality "zbcd" (hash_secret "abcd")
     "sha256$zbcd" "sha256$abcd" (by decide) (by decide)⟩

end AuthHub
